import Mathlib

/-!
Shallow embedding of `matt-williams/ziggurat` (`src/main.rs`), a WebGL mesh
viewer: a PLY-payload parser (`PlyMesh::parse`), the generic mesh binder
(`Mesh::bind`), the per-frame animation step (`State::animate`), and the
attribute/uniform location resolution done in `main`.

Conventions of the embedding:
- `f32`/`f64` arithmetic is idealised as exact rational arithmetic (`ℚ`);
  the one place where IEEE special values matter (division by a zero
  viewport height) uses an explicit IEEE-style value type `F`.
- `sin`/`cos` (used by cgmath's Euler-to-matrix conversion) are abstracted
  as an explicit parameter `sc : ℚ → ℚ × ℚ` returning `(sin θ, cos θ)`;
  theorems that need a fact about them (only `sc 0 = (0, 1)`) take it as a
  hypothesis.
- Rust integer casts are explicit: `u32 → u16` and `usize → u16` are
  `% 65536`, `i32 → u32` is two's-complement reinterpretation.
- A Rust `panic!` (from `Option::unwrap` on `None`) is `Except.error ()`.
- PLY element and property names are opaque tokens, modelled by the
  enumerations `ElemKey` and `PropKey` instead of strings.
-/

/-- Property values of a PLY element, after `ply_rs` has read the document
(the constructors mirror `ply_rs::ply::Property`; only the scalar and list
variants the program distinguishes are included, plus enough others for a
type mismatch to be representable). Floats are idealised as `ℚ`. -/
inductive Property where
  | uchar (v : Nat)
  | int (v : Int)
  | uint (v : Nat)
  | float (v : ℚ)
  | double (v : ℚ)
  | listUInt (v : List Nat)
  | listInt (v : List Int)
deriving DecidableEq, BEq

/-- Names of the PLY properties the program looks up (opaque tokens for the
strings appearing in `PlyMesh::parse`). -/
inductive PropKey where
  | x | y | z | nx | ny | nz | red | green | blue | vertex_indices
deriving DecidableEq, BEq

/-- Names of the PLY elements the program looks up. -/
inductive ElemKey where
  | vertex | face
deriving DecidableEq, BEq

/-- One parsed PLY element: a keyed property map
(`ply_rs::ply::DefaultElement`). -/
abbrev Element := List (PropKey × Property)

/-- Property lookup on an element (`DefaultElement::get`): the value at
the first matching key. -/
def Element.get (e : Element) (k : PropKey) : Option Property :=
  match e with
  | [] => none
  | (k2, v) :: rest => if k2 = k then some v else Element.get rest k

/-- The payload of a parsed PLY document: element name to list of element
records (`ply.payload`). -/
abbrev Payload := List (ElemKey × List Element)

/-- Element lookup on a payload (`ply.payload.get`): the value at the
first matching key. -/
def Payload.get (p : Payload) (k : ElemKey) : Option (List Element) :=
  match p with
  | [] => none
  | (k2, v) :: rest => if k2 = k then some v else Payload.get rest k

/-- The `x`/`y`/`z` extraction of one vertex element: the triple when all
three are `Property::Float`, `none` otherwise (the match arms of the first
`flat_map` closure in `PlyMesh::parse`, main.rs lines 106-111). -/
def vertexPos (e : Element) : Option (ℚ × ℚ × ℚ) :=
  match e.get .x, e.get .y, e.get .z with
  | some (.float a), some (.float b), some (.float c) => some (a, b, c)
  | _, _, _ => none

/-- The `nx`/`ny`/`nz` extraction of one vertex element (main.rs lines
116-121). -/
def vertexNorm (e : Element) : Option (ℚ × ℚ × ℚ) :=
  match e.get .nx, e.get .ny, e.get .nz with
  | some (.float a), some (.float b), some (.float c) => some (a, b, c)
  | _, _, _ => none

/-- The `red`/`green`/`blue` extraction of one vertex element: the triple
when all three are `Property::UChar` (main.rs lines 126-131). -/
def vertexColor (e : Element) : Option (Nat × Nat × Nat) :=
  match e.get .red, e.get .green, e.get .blue with
  | some (.uchar r), some (.uchar g), some (.uchar b) => some (r, g, b)
  | _, _, _ => none

/-- The `vertex_indices` extraction of one face element: the list when the
property is `Property::ListUInt` (the `filter_map` closure, main.rs lines
139-144). -/
def faceIndices (e : Element) : Option (List Nat) :=
  match e.get .vertex_indices with
  | some (.listUInt l) => some l
  | _ => none

/-- The shape shared by the three vertex-attribute `flat_map`s in
`PlyMesh::parse`: a matching element contributes its three components, a
mismatching one contributes the empty slice `vec![]`. -/
def tripleFlat {β : Type} (f : Element → Option (β × β × β))
    (vs : List Element) : List β :=
  vs.flatMap fun e =>
    match f e with
    | some (a, b, c) => [a, b, c]
    | none => []

/-- The `vertices` array built by `PlyMesh::parse` (main.rs lines 104-113). -/
def positionsOf (vs : List Element) : List ℚ :=
  tripleFlat vertexPos vs

/-- The `normals` array built by `PlyMesh::parse` (main.rs lines 114-123). -/
def normalsOf (vs : List Element) : List ℚ :=
  tripleFlat vertexNorm vs

/-- The `colors` array built by `PlyMesh::parse`: each `u8` channel is
normalised by `/ 255.` (main.rs lines 124-133). -/
def colorsOf (vs : List Element) : List ℚ :=
  (tripleFlat vertexColor vs).map fun (c : Nat) => (c : ℚ) / 255

/-- The `indices` array built by `PlyMesh::parse`: faces whose
`vertex_indices` is not `ListUInt` are dropped by `filter_map`, the rest
are flattened with each `u32` entry cast `as u16`, i.e. reduced mod 2^16
(main.rs lines 134-146). -/
def indicesOf (fs : List Element) : List Nat :=
  (fs.filterMap faceIndices).flatMap fun l => l.map fun v => v % 65536

/-- Number of `console!(log, "Something else")` diagnostics emitted by the
`vertices` pass: one per vertex whose `x`/`y`/`z` mismatch. -/
def posDiags (vs : List Element) : Nat :=
  vs.countP fun e => (vertexPos e).isNone

/-- Diagnostics emitted by the `normals` pass. -/
def normDiags (vs : List Element) : Nat :=
  vs.countP fun e => (vertexNorm e).isNone

/-- Diagnostics emitted by the `colors` pass. -/
def colorDiags (vs : List Element) : Nat :=
  vs.countP fun e => (vertexColor e).isNone

/-- Diagnostics emitted by the `indices` pass: one per face whose
`vertex_indices` is not `ListUInt`. -/
def faceDiags (fs : List Element) : Nat :=
  fs.countP fun e => (faceIndices e).isNone

/-- The four parallel attribute arrays of a parsed mesh (`struct PlyMesh`). -/
structure PlyMesh where
  vertices : List ℚ
  normals : List ℚ
  colors : List ℚ
  indices : List Nat
deriving DecidableEq

/-- `PlyMesh::parse` (main.rs lines 101-148), from the payload level: the
four `ply.payload.get(...).unwrap()` calls panic (`Except.error ()`) when
the `vertex` or `face` element is absent; otherwise the four arrays are
built and the number of logged diagnostics is returned alongside. -/
def PlyMesh.parse (p : Payload) : Except Unit (PlyMesh × Nat) :=
  match Payload.get p .vertex, Payload.get p .face with
  | some vs, some fs =>
    .ok ({ vertices := positionsOf vs
           normals := normalsOf vs
           colors := colorsOf vs
           indices := indicesOf fs },
         posDiags vs + normDiags vs + colorDiags vs + faceDiags fs)
  | _, _ => .error ()

/-- A valid geometry document in the sense of the parser's expectations:
both elements present, every vertex carries Float `x,y,z,nx,ny,nz` and
UChar `red,green,blue`, and every face carries a ListUInt `vertex_indices`
whose entries are all below the vertex count. -/
def validDoc (p : Payload) : Prop :=
  ∃ vs fs, Payload.get p .vertex = some vs ∧ Payload.get p .face = some fs ∧
    (∀ e ∈ vs,
      (vertexPos e).isSome ∧ (vertexNorm e).isSome ∧ (vertexColor e).isSome) ∧
    (∀ e ∈ fs, ∃ l, faceIndices e = some l ∧ ∀ v ∈ l, v < vs.length)

/-- Bitflag value of `Keys::UP` (main.rs line 220). -/
def keyUP : Nat := 1

/-- Bitflag value of `Keys::DOWN`. -/
def keyDOWN : Nat := 2

/-- Bitflag value of `Keys::LEFT`. -/
def keyLEFT : Nat := 4

/-- Bitflag value of `Keys::RIGHT`. -/
def keyRIGHT : Nat := 8

/-- `bitflags` `contains`: all bits of `flag` are set in `keys`. -/
def hasKey (keys flag : Nat) : Bool :=
  keys.land flag = flag

/-- The `(contains(a) as i8 - contains(b) as i8)` pattern of
`State::animate` (main.rs lines 252 and 256). -/
def keySign (keys pos neg : Nat) : Int :=
  (if hasKey keys pos then 1 else 0) - (if hasKey keys neg then 1 else 0)

/-- The X-axis Euler angle fed to `Euler::new` by `State::animate`:
`dt * 0.001 * (UP - DOWN)` (main.rs lines 250-253). -/
def pitchAngle (keys : Nat) (dt : ℚ) : ℚ :=
  dt * 0.001 * (keySign keys keyUP keyDOWN : ℚ)

/-- The Y-axis Euler angle fed to `Euler::new` by `State::animate`:
`dt * 0.001 * (RIGHT - LEFT)` (main.rs lines 254-257). -/
def yawAngle (keys : Nat) (dt : ℚ) : ℚ :=
  dt * 0.001 * (keySign keys keyRIGHT keyLEFT : ℚ)

/-- cgmath's `Matrix4::from(Euler::new(Rad x, Rad y, Rad z))` with
`sin`/`cos` abstracted as `sc θ = (sin θ, cos θ)`. Entries follow cgmath's
column-major `Matrix4::new` argument order, transcribed row-wise. -/
def eulerMat (sc : ℚ → ℚ × ℚ) (x y z : ℚ) : Matrix (Fin 4) (Fin 4) ℚ :=
  let sx := (sc x).1
  let cx := (sc x).2
  let sy := (sc y).1
  let cy := (sc y).2
  let sz := (sc z).1
  let cz := (sc z).2
  !![cy * cz, -cx * sz + sx * sy * cz, sx * sz + cx * sy * cz, 0;
     cy * sz, cx * cz + sx * sy * sz, -sx * cz + cx * sy * sz, 0;
     -sy, sx * cy, cx * cy, 0;
     0, 0, 0, 1]

/-- The animation-relevant fields of `struct State`: `time_old`,
`mov_matrix` and the key bitfield. -/
structure AnimState where
  time_old : ℚ
  mov_matrix : Matrix (Fin 4) (Fin 4) ℚ
  keys : Nat

/-- The state update performed by `State::animate` (main.rs lines 248-260):
`dt = time - time_old`, `mov_matrix = mov_matrix * Matrix4::from(Euler::new
(Rad (dt*0.001*(UP-DOWN)), Rad (dt*0.001*(RIGHT-LEFT)), Rad 0))`, then
`time_old = time`. -/
def State.animate (sc : ℚ → ℚ × ℚ) (s : AnimState) (time : ℚ) : AnimState :=
  let dt := time - s.time_old
  { s with
    mov_matrix :=
      s.mov_matrix * eulerMat sc (pitchAngle s.keys dt) (yawAngle s.keys dt) 0
    time_old := time }

/-- The `Mesh` trait's four accessor arrays (main.rs lines 24-28), for a
mesh variant given as plain data. -/
structure MeshData where
  vertices : List ℚ
  normals : List ℚ
  colors : List ℚ
  indices : List Nat
deriving DecidableEq

/-- The observable result of `Mesh::bind` (main.rs lines 30-52): the four
buffers hold exactly the uploaded arrays and `num_indices` is
`self.indices().len() as u16`, a `usize → u16` truncating cast. -/
structure BoundMesh where
  num_indices : Nat
  vertex_buffer : List ℚ
  normal_buffer : List ℚ
  color_buffer : List ℚ
  index_buffer : List Nat
deriving DecidableEq

/-- `Mesh::bind` (main.rs lines 30-52). -/
def Mesh.bind (m : MeshData) : BoundMesh :=
  { num_indices := m.indices.length % 65536
    vertex_buffer := m.vertices
    normal_buffer := m.normals
    color_buffer := m.colors
    index_buffer := m.indices }

/-- Uniform names resolved by `main` (main.rs lines 447-455). -/
inductive UniformName where
  | Pmatrix | Vmatrix | Mmatrix
deriving DecidableEq

/-- Attribute names resolved by `main` (main.rs lines 457-459). -/
inductive AttribName where
  | position | color | normal
deriving DecidableEq

/-- The GL context facts location resolution depends on:
`get_uniform_location` returns an optional location,
`get_attrib_location` returns an `i32` (`-1` when unresolved). -/
structure GlEnv where
  uniformLoc : UniformName → Option Nat
  attribLoc : AttribName → Int

/-- Rust's `as u32` on an `i32`: two's-complement reinterpretation. -/
def intToU32 (i : Int) : Nat :=
  (i % 4294967296).toNat

/-- The six resolved locations stored in `State`. -/
structure Locations where
  p_matrix : Nat
  v_matrix : Nat
  m_matrix : Nat
  position : Nat
  color : Nat
  normal : Nat
deriving DecidableEq

/-- The location-resolution step of `main` (main.rs lines 447-459): the
three uniform lookups are each `.unwrap()`ed — a missing uniform panics
(`Except.error ()`) — while the three attribute lookups are cast `as u32`,
so an unresolved attribute (`-1`) becomes the sentinel `4294967295`. -/
def resolveLocations (env : GlEnv) : Except Unit Locations :=
  match env.uniformLoc .Pmatrix with
  | none => .error ()
  | some p =>
    match env.uniformLoc .Vmatrix with
    | none => .error ()
    | some v =>
      match env.uniformLoc .Mmatrix with
      | none => .error ()
      | some m =>
        .ok { p_matrix := p
              v_matrix := v
              m_matrix := m
              position := intToU32 (env.attribLoc .position)
              color := intToU32 (env.attribLoc .color)
              normal := intToU32 (env.attribLoc .normal) }

/-- The initialization sequence of `main` up to the first
`state.borrow_mut().animate(0., ...)` call (main.rs lines 407-502): parse
the peon document, parse the ziggurat document, resolve shader locations;
`Except.ok` means initialization completed and the first frame was
scheduled, `Except.error` means a panic aborted startup first. -/
def startup (peonDoc zigDoc : Payload) (env : GlEnv) : Except Unit Locations :=
  match PlyMesh.parse peonDoc with
  | .error e => .error e
  | .ok _ =>
    match PlyMesh.parse zigDoc with
    | .error e => .error e
    | .ok _ => resolveLocations env

/-- An `f32` value as far as the aspect-ratio computation needs: finite
(idealised exact) or an IEEE special value. -/
inductive F where
  | fin (q : ℚ)
  | inf
  | neginf
  | nan
deriving DecidableEq

/-- IEEE-style `f32` division on nonnegative-or-finite operands: division
by zero yields an infinity (or NaN for 0/0) instead of trapping. -/
def fdiv (a b : F) : F :=
  match a, b with
  | .fin x, .fin y =>
    if y = 0 then
      if x = 0 then .nan else if 0 < x then .inf else .neginf
    else .fin (x / y)
  | _, _ => .nan

/-- The aspect ratio computed by `State::animate` for the projection:
`(w as f32) / (h as f32)` from the canvas size, with no guard on `h`
(main.rs lines 268-274). -/
def aspectOf (w h : Nat) : F :=
  fdiv (.fin (w : ℚ)) (.fin (h : ℚ))

/-- The externally visible per-frame effects of `State::animate`, one
constructor per call block of the frame body. -/
inductive FrameEvent where
  | updateModelMatrix
  | storeTime
  | enableDepthTest
  | setDepthFunc
  | setClearColor
  | setClearDepth
  | setCullFace
  | computeProjection
  | setViewport
  | clearBuffers
  | useProgram
  | enableAttribArrays
  | bindVertexBuffers
  | uploadUniforms
  | bindIndexBuffer
  | drawElements
  | requestNextFrame
  | storePrevKeys
deriving DecidableEq, BEq

/-- The order of the per-frame effects in `State::animate`, one entry per
call block in source order: the `mov_matrix` update (line 249), storing
`time_old` (260), depth-test enable (262), `depth_func` (263),
`clear_color` (264), `clear_depth` (265), `cull_face` (266), the
projection-matrix recomputation (269-275), `viewport` (277), the actual
`clear(COLOR_BUFFER_BIT | DEPTH_BUFFER_BIT)` (278-279), `use_program`
(281), the three `enable_vertex_attrib_array` calls (282-284), the vertex/
color/normal buffer binds with `vertex_attrib_pointer` (286-293), the
three `uniform_matrix4fv` uploads (295-309), the index-buffer bind
(311-312), `draw_elements` (313-314), `request_animation_frame` (346-348),
and storing `prev_keys` (349). -/
def animateTrace : List FrameEvent :=
  [.updateModelMatrix, .storeTime, .enableDepthTest, .setDepthFunc,
   .setClearColor, .setClearDepth, .setCullFace, .computeProjection,
   .setViewport, .clearBuffers, .useProgram, .enableAttribArrays,
   .bindVertexBuffers, .uploadUniforms, .bindIndexBuffer, .drawElements,
   .requestNextFrame, .storePrevKeys]

/-- A one-vertex, one-triangle document in which every property has the
expected type. -/
def doc1 : Payload :=
  [(.vertex,
    [[(.x, .float 0), (.y, .float 0), (.z, .float 0),
      (.nx, .float 0), (.ny, .float 0), (.nz, .float 1),
      (.red, .uchar 255), (.green, .uchar 0), (.blue, .uchar 0)]]),
   (.face, [[(.vertex_indices, .listUInt [0, 0, 0])]])]

/-- A document whose single vertex stores `x` as a Double instead of the
expected Float, while its normal and color properties are well-typed. -/
def doc7 : Payload :=
  [(.vertex,
    [[(.x, .double 0), (.y, .float 0), (.z, .float 0),
      (.nx, .float 0), (.ny, .float 0), (.nz, .float 1),
      (.red, .uchar 255), (.green, .uchar 0), (.blue, .uchar 0)]]),
   (.face, [[(.vertex_indices, .listUInt [0, 0, 0])]])]

/-- A document whose face names vertex 65537, above the `u16` range. -/
def doc10 : Payload :=
  [(.vertex,
    [[(.x, .float 0), (.y, .float 0), (.z, .float 0),
      (.nx, .float 0), (.ny, .float 0), (.nz, .float 1),
      (.red, .uchar 255), (.green, .uchar 0), (.blue, .uchar 0)]]),
   (.face, [[(.vertex_indices, .listUInt [0, 65537, 0])]])]

/-- A mesh with 65536 indices, enough to overflow a `u16` count. -/
def bigMesh : MeshData :=
  { vertices := [], normals := [], colors := []
    indices := List.replicate 65536 0 }

/-- The 3-vertex, 1-triangle mesh of the end-to-end scenario. -/
def triMesh : MeshData :=
  { vertices := [0, 0, 0, 1, 0, 0, 0, 1, 0]
    normals := [0, 0, 1, 0, 0, 1, 0, 0, 1]
    colors := [1, 0, 0, 0, 1, 0, 0, 0, 1]
    indices := [0, 1, 2] }

/-- A concrete sin/cos table that is exact at angle 0. -/
def scZero : ℚ → ℚ × ℚ := fun _ => (0, 1)

/-- A GL environment in which every uniform resolves (to location 7) and
every attribute lookup fails (returns `-1`). -/
def envU : GlEnv :=
  { uniformLoc := fun _ => some 7, attribLoc := fun _ => -1 }

/-- A GL environment in which no uniform resolves. -/
def envNone : GlEnv :=
  { uniformLoc := fun _ => none, attribLoc := fun _ => -1 }

/-- Each element contributes 3 entries when its extractor matches and 0
otherwise, so a `tripleFlat` pass has length three times the number of
matching elements. -/
theorem tripleFlat_length {β : Type} (f : Element → Option (β × β × β))
    (vs : List Element) :
    (tripleFlat f vs).length = 3 * (vs.countP fun e => (f e).isSome) := by
  induction vs with
  | nil => simp [tripleFlat]
  | cons e t ih =>
    rw [tripleFlat, List.flatMap_cons, List.length_append, List.countP_cons]
    rw [tripleFlat] at ih
    cases h : f e with
    | none => simp [h, ih]
    | some trip =>
      obtain ⟨a, b, c⟩ := trip
      simp [h, ih]
      ring

/-- When every element matches, a `tripleFlat` pass has length `3 * n`. -/
theorem tripleFlat_length_all {β : Type} (f : Element → Option (β × β × β))
    (vs : List Element) (h : ∀ e ∈ vs, (f e).isSome) :
    (tripleFlat f vs).length = 3 * vs.length := by
  rw [tripleFlat_length, List.countP_eq_length.mpr h]

/-- Every index the parser stores is the `mod 2^16` reduction of a list
entry, hence bounded by any bound on the entries themselves. -/
theorem indicesOf_lt (fs : List Element) (n : Nat)
    (h : ∀ e ∈ fs, ∃ l, faceIndices e = some l ∧ ∀ v ∈ l, v < n) :
    ∀ i ∈ indicesOf fs, i < n := by
  intro i hi
  rw [indicesOf, List.mem_flatMap] at hi
  obtain ⟨l, hl, hil⟩ := hi
  rw [List.mem_filterMap] at hl
  obtain ⟨e, he, hfe⟩ := hl
  rw [List.mem_map] at hil
  obtain ⟨v, hv, rfl⟩ := hil
  obtain ⟨l2, hl2, hall⟩ := h e he
  rw [hfe] at hl2
  injection hl2 with hl2
  subst hl2
  exact lt_of_le_of_lt (Nat.mod_le v 65536) (hall v hv)

/-- C1: on a valid geometry document (every vertex carries Float
`x,y,z,nx,ny,nz` and UChar `red,green,blue`, every face a ListUInt
`vertex_indices` with entries below the vertex count), `PlyMesh::parse`
succeeds with positions, normals and colors of equal length and every
stored index strictly below the number of position triples. -/
theorem parse_valid_invariant (p : Payload) (h : validDoc p) :
    ∃ m d, PlyMesh.parse p = .ok (m, d) ∧
      m.vertices.length = m.normals.length ∧
      m.normals.length = m.colors.length ∧
      ∀ i ∈ m.indices, i < m.vertices.length / 3 := by
  obtain ⟨vs, fs, hv, hf, hvert, hface⟩ := h
  have hpos : (positionsOf vs).length = 3 * vs.length :=
    tripleFlat_length_all _ _ fun e he => (hvert e he).1
  have hnorm : (normalsOf vs).length = 3 * vs.length :=
    tripleFlat_length_all _ _ fun e he => (hvert e he).2.1
  have hcol : (colorsOf vs).length = 3 * vs.length := by
    simp only [colorsOf, List.length_map]
    exact tripleFlat_length_all _ _ fun e he => (hvert e he).2.2
  refine ⟨⟨positionsOf vs, normalsOf vs, colorsOf vs, indicesOf fs⟩,
    posDiags vs + normDiags vs + colorDiags vs + faceDiags fs,
    by simp [PlyMesh.parse, hv, hf], ?_, ?_, ?_⟩
  · rw [hpos, hnorm]
  · rw [hnorm, hcol]
  · intro i hi
    have hb := indicesOf_lt fs vs.length hface i hi
    simpa [hpos, Nat.mul_div_cancel_left] using hb

/-- Witness for C1: the invariant holds on the concrete valid document
`doc1`. -/
theorem parse_valid_invariant_app :
    validDoc doc1 ∧
    ∃ m d, PlyMesh.parse doc1 = .ok (m, d) ∧
      m.vertices.length = m.normals.length ∧
      m.normals.length = m.colors.length ∧
      ∀ i ∈ m.indices, i < m.vertices.length / 3 := by
  have hval : validDoc doc1 := by
    refine ⟨_, _, rfl, rfl, ?_, ?_⟩
    · intro e he
      rw [List.mem_singleton] at he
      subst he
      exact ⟨by decide, by decide, by decide⟩
    · intro e he
      rw [List.mem_singleton] at he
      subst he
      exact ⟨[0, 0, 0], rfl, by decide⟩
  exact ⟨hval, parse_valid_invariant doc1 hval⟩

/-- C6: a document lacking a `vertex` element or lacking a `face` element
makes `PlyMesh::parse` abort unrecoverably (the `unwrap` panics) instead
of returning a mesh, and startup never reaches the point where the first
frame is scheduled. -/
theorem parse_missing_element_fails (p : Payload)
    (h : Payload.get p .vertex = none ∨ Payload.get p .face = none) :
    PlyMesh.parse p = .error () ∧
    ∀ q env, startup p q env = .error () := by
  have hp : PlyMesh.parse p = .error () := by
    rcases h with h | h
    · simp [PlyMesh.parse, h]
    · cases hv : Payload.get p .vertex <;> simp [PlyMesh.parse, h, hv]
  exact ⟨hp, fun q env => by simp [startup, hp]⟩

/-- Witness for C6: the empty payload has no `vertex` element; parse and
startup both abort on it. -/
theorem parse_missing_element_fails_app :
    PlyMesh.parse ([] : Payload) = .error () ∧
    startup ([] : Payload) doc1 envU = .error () :=
  ⟨(parse_missing_element_fails [] (Or.inl rfl)).1,
   (parse_missing_element_fails [] (Or.inl rfl)).2 doc1 envU⟩

/-- C7: when some vertex's `x,y,z` are not all Float while every vertex's
normal and color properties are well-typed, the parse still succeeds, at
least one diagnostic is logged, and the positions array comes out strictly
shorter than its sibling arrays. -/
theorem parse_type_mismatch_recovered (p : Payload) (vs fs : List Element)
    (hv : Payload.get p .vertex = some vs) (hf : Payload.get p .face = some fs)
    (hbad : ∃ e ∈ vs, (vertexPos e).isNone)
    (hn : ∀ e ∈ vs, (vertexNorm e).isSome)
    (hc : ∀ e ∈ vs, (vertexColor e).isSome) :
    ∃ m d, PlyMesh.parse p = .ok (m, d) ∧ 0 < d ∧
      m.vertices.length < m.normals.length ∧
      m.vertices.length < m.colors.length := by
  have hdiag : 0 < posDiags vs := by
    rw [posDiags, List.countP_pos_iff]
    obtain ⟨e, he, hne⟩ := hbad
    exact ⟨e, he, hne⟩
  have hcount : (vs.countP fun e => (vertexPos e).isSome) < vs.length := by
    refine lt_of_le_of_ne (List.countP_le_length _) fun heq => ?_
    obtain ⟨e, he, hne⟩ := hbad
    have hs := List.countP_eq_length.mp heq e he
    rw [Option.isNone_iff_eq_none] at hne
    simp [hne] at hs
  have hpos : (positionsOf vs).length = 3 * (vs.countP fun e => (vertexPos e).isSome) :=
    tripleFlat_length _ _
  have hnorm : (normalsOf vs).length = 3 * vs.length :=
    tripleFlat_length_all _ _ hn
  have hcol : (colorsOf vs).length = 3 * vs.length := by
    simp only [colorsOf, List.length_map]
    exact tripleFlat_length_all _ _ hc
  refine ⟨⟨positionsOf vs, normalsOf vs, colorsOf vs, indicesOf fs⟩,
    posDiags vs + normDiags vs + colorDiags vs + faceDiags fs,
    by simp [PlyMesh.parse, hv, hf], by omega, ?_, ?_⟩
  · rw [hpos, hnorm]
    omega
  · rw [hpos, hcol]
    omega

/-- Witness for C7: on `doc7` (a Double `x`), the parse succeeds with a
logged diagnostic and a positions array shorter than its siblings. -/
theorem parse_type_mismatch_recovered_app :
    ∃ m d, PlyMesh.parse doc7 = .ok (m, d) ∧ 0 < d ∧
      m.vertices.length < m.normals.length ∧
      m.vertices.length < m.colors.length := by
  refine parse_type_mismatch_recovered doc7 _ _ rfl rfl ?_ ?_ ?_
  · refine ⟨_, List.mem_singleton.mpr rfl, by decide⟩
  · intro e he
    rw [List.mem_singleton] at he
    subst he
    decide
  · intro e he
    rw [List.mem_singleton] at he
    subst he
    decide

/-- C10: `PlyMesh::parse` narrows each `u32` face index to `u16` by
truncation: on `doc10`, whose face names vertex 65537, the stored index is
`65537 mod 2^16 = 1`, a different vertex than the document named. -/
theorem parse_index_truncation :
    PlyMesh.parse doc10 =
      .ok ({ vertices := [0, 0, 0], normals := [0, 0, 1]
             colors := [1, 0, 0], indices := [0, 1, 0] }, 0) ∧
    (65537 : Nat) % 65536 = 1 ∧ (1 : Nat) ≠ 65537 := by
  refine ⟨?_, by decide, by decide⟩
  simp [PlyMesh.parse, doc10, Payload.get, Element.get,
    positionsOf, normalsOf, colorsOf, indicesOf, tripleFlat, vertexPos,
    vertexNorm, vertexColor, faceIndices, posDiags, normDiags, colorDiags,
    faceDiags]

/-- C2: holding UP alone multiplies the model matrix by the rotation with
X-axis Euler angle `dt * 0.001` and zero Y/Z angles, and holding UP and
DOWN together makes the X-axis angle cancel to zero. -/
theorem animate_input_rotation (sc : ℚ → ℚ × ℚ) (s : AnimState) (t : ℚ) :
    (s.keys = keyUP →
      (State.animate sc s t).mov_matrix
        = s.mov_matrix * eulerMat sc ((t - s.time_old) * 0.001) 0 0) ∧
    (∀ keys : Nat, hasKey keys keyUP → hasKey keys keyDOWN →
      pitchAngle keys (t - s.time_old) = 0) := by
  constructor
  · intro hk
    have hu : hasKey keyUP keyUP = true := by decide
    have hd : hasKey keyUP keyDOWN = false := by decide
    have hr : hasKey keyUP keyRIGHT = false := by decide
    have hl : hasKey keyUP keyLEFT = false := by decide
    have h1 : pitchAngle keyUP (t - s.time_old) = (t - s.time_old) * 0.001 := by
      simp [pitchAngle, keySign, hu, hd]
    have h2 : yawAngle keyUP (t - s.time_old) = 0 := by
      simp [yawAngle, keySign, hr, hl]
    rw [State.animate]
    simp only [hk, h1, h2]
  · intro keys hu hd
    simp [pitchAngle, keySign, hu, hd]

/-- Witness for C2: with UP alone held the delta rotation has pitch
`dt * 0.001` at `dt = 5`, and with UP and DOWN held (`keys = 3`) the pitch
angle is zero. -/
theorem animate_input_rotation_app :
    (State.animate scZero { time_old := 0, mov_matrix := 1, keys := keyUP } 5).mov_matrix
      = (1 : Matrix (Fin 4) (Fin 4) ℚ) * eulerMat scZero ((5 - 0) * 0.001) 0 0 ∧
    pitchAngle 3 (5 - 0) = 0 :=
  ⟨(animate_input_rotation scZero { time_old := 0, mov_matrix := 1, keys := keyUP } 5).1 rfl,
   (animate_input_rotation scZero { time_old := 0, mov_matrix := 1, keys := keyUP } 5).2
     3 (by decide) (by decide)⟩

/-- With exact `sin 0 = 0` and `cos 0 = 1`, the Euler rotation at all-zero
angles is the identity matrix. -/
theorem eulerMat_zero (sc : ℚ → ℚ × ℚ) (hsc : sc 0 = (0, 1)) :
    eulerMat sc 0 0 0 = 1 := by
  ext i j
  fin_cases i <;> fin_cases j <;>
    simp [eulerMat, hsc, Matrix.one_apply, Matrix.vecHead, Matrix.vecTail]

/-- C8: two consecutive frames (at t=0 then t=16) with no key held leave
the model matrix unchanged: the zero-angle delta rotation is the identity. -/
theorem animate_idle_keeps_model (sc : ℚ → ℚ × ℚ) (hsc : sc 0 = (0, 1))
    (s : AnimState) (hk : s.keys = 0) :
    (State.animate sc (State.animate sc s 0) 16).mov_matrix
      = (State.animate sc s 0).mov_matrix := by
  have hu : hasKey 0 keyUP = false := by decide
  have hd : hasKey 0 keyDOWN = false := by decide
  have hr : hasKey 0 keyRIGHT = false := by decide
  have hl : hasKey 0 keyLEFT = false := by decide
  have hpitch : ∀ dt : ℚ, pitchAngle 0 dt = 0 := fun dt => by
    simp [pitchAngle, keySign, hu, hd]
  have hyaw : ∀ dt : ℚ, yawAngle 0 dt = 0 := fun dt => by
    simp [yawAngle, keySign, hr, hl]
  have hk1 : (State.animate sc s 0).keys = 0 := by
    simp [State.animate, hk]
  conv_lhs => rw [State.animate]
  simp only [hk1, hpitch, hyaw, eulerMat_zero sc hsc, mul_one]

/-- Witness for C8: the concrete two-frame scenario with the exact-at-zero
sin/cos table and the initial state. -/
theorem animate_idle_keeps_model_app :
    (State.animate scZero
        (State.animate scZero { time_old := 0, mov_matrix := 1, keys := 0 } 0)
        16).mov_matrix
      = (State.animate scZero { time_old := 0, mov_matrix := 1, keys := 0 } 0).mov_matrix :=
  animate_idle_keeps_model scZero rfl { time_old := 0, mov_matrix := 1, keys := 0 } rfl

/-- For any mesh with exactly 65536 indices the stored `u16` count wraps
to 0 and disagrees with the true length. -/
theorem bind_wraps_at_65536 (m : MeshData) (h : m.indices.length = 65536) :
    (Mesh.bind m).num_indices ≠ m.indices.length := by
  show m.indices.length % 65536 ≠ m.indices.length
  rw [h]
  decide

/-- Counterexample to C3 as stated: for the concrete mesh with 65536
indices the stored `num_indices` (a `u16`) is 0, not the actual length. -/
theorem bind_num_indices_overflow :
    (Mesh.bind bigMesh).num_indices ≠ bigMesh.indices.length :=
  bind_wraps_at_65536 bigMesh (List.length_replicate _ _)

/-- C3 amended: `Mesh::bind` stores `len(indices)` reduced mod 2^16 (the
`as u16` cast), which equals `len(indices)` exactly when that length is
below 65536. -/
theorem bind_num_indices_mod (m : MeshData) :
    (Mesh.bind m).num_indices = m.indices.length % 65536 ∧
    (m.indices.length < 65536 →
      (Mesh.bind m).num_indices = m.indices.length) :=
  ⟨rfl, fun h => by simp [Mesh.bind, Nat.mod_eq_of_lt h]⟩

/-- Witness for C3 amended: on the 3-index triangle mesh the count is
reported exactly. -/
theorem bind_num_indices_mod_app :
    (Mesh.bind triMesh).num_indices = triMesh.indices.length % 65536 ∧
    (Mesh.bind triMesh).num_indices = triMesh.indices.length :=
  ⟨(bind_num_indices_mod triMesh).1,
   (bind_num_indices_mod triMesh).2 (by decide)⟩

/-- Counterexample to C4 as stated: at canvas width 2 and height 0 the
aspect ratio the code computes is IEEE `+∞`, not the fallback 1.0 (nor
`w / 1 = 2`): no guard exists. -/
theorem aspect_zero_height_no_fallback :
    aspectOf 2 0 = F.inf ∧ F.inf ≠ F.fin 1 ∧ F.inf ≠ F.fin 2 := by
  refine ⟨?_, by decide, by decide⟩
  have h2 : ((2 : Nat) : ℚ) ≠ 0 := by norm_num
  have hp : (0 : ℚ) < ((2 : Nat) : ℚ) := by norm_num
  simp [aspectOf, fdiv, h2, hp]

/-- C4 amended: a zero viewport height raises no division error — the
division is total — but there is no fallback: for any positive width the
computed aspect ratio is IEEE `+∞`. -/
theorem aspect_zero_height_inf (w : Nat) (hw : 0 < w) :
    aspectOf w 0 = F.inf := by
  have h1 : ((w : ℚ)) ≠ 0 := Nat.cast_ne_zero.mpr hw.ne'
  have h2 : (0 : ℚ) < (w : ℚ) := by exact_mod_cast hw
  simp [aspectOf, fdiv, h1, h2]

/-- Witness for C4 amended: width 2, height 0. -/
theorem aspect_zero_height_inf_app : aspectOf 2 0 = F.inf :=
  aspect_zero_height_inf 2 (by decide)

/-- Counterexample to C5 as stated: in an environment where the uniform
names do not resolve, initialization panics on `unwrap` instead of
yielding a sentinel location. -/
theorem resolve_missing_uniform_errors :
    resolveLocations envNone = .error () := rfl

/-- C5 amended: unresolved attribute names yield the sentinel 4294967295
(`-1` cast `as u32`) without crashing, but the three uniform lookups are
`unwrap`ed, so they only succeed when every uniform name resolves. -/
theorem resolve_locations_ok (env : GlEnv) (p v m : Nat)
    (hp : env.uniformLoc .Pmatrix = some p)
    (hv : env.uniformLoc .Vmatrix = some v)
    (hm : env.uniformLoc .Mmatrix = some m) :
    resolveLocations env =
      .ok { p_matrix := p, v_matrix := v, m_matrix := m
            position := intToU32 (env.attribLoc .position)
            color := intToU32 (env.attribLoc .color)
            normal := intToU32 (env.attribLoc .normal) } ∧
    intToU32 (-1) = 4294967295 := by
  refine ⟨?_, by decide⟩
  simp [resolveLocations, hp, hv, hm]

/-- Witness for C5 amended: uniforms all resolve to 7, attributes all fail
to resolve and come out as the sentinel. -/
theorem resolve_locations_ok_app :
    resolveLocations envU =
      .ok { p_matrix := 7, v_matrix := 7, m_matrix := 7
            position := 4294967295, color := 4294967295
            normal := 4294967295 } ∧
    intToU32 (-1) = 4294967295 :=
  resolve_locations_ok envU 7 7 7 rfl rfl rfl

/-- Counterexample to C9 as stated: the buffer clear does not come first —
the model-matrix update precedes it in every frame. -/
theorem frame_order_clear_not_first :
    ¬ (animateTrace.indexOf FrameEvent.clearBuffers
        < animateTrace.indexOf FrameEvent.updateModelMatrix) := by decide

/-- C9 amended: each frame updates the transforms first (model matrix,
then projection), then clears the color+depth buffers, then binds buffers
and uploads the uniforms, then issues the draw call, then reschedules. -/
theorem frame_order_actual :
    animateTrace.indexOf FrameEvent.updateModelMatrix
        < animateTrace.indexOf FrameEvent.computeProjection ∧
    animateTrace.indexOf FrameEvent.computeProjection
        < animateTrace.indexOf FrameEvent.clearBuffers ∧
    animateTrace.indexOf FrameEvent.clearBuffers
        < animateTrace.indexOf FrameEvent.bindVertexBuffers ∧
    animateTrace.indexOf FrameEvent.bindVertexBuffers
        < animateTrace.indexOf FrameEvent.uploadUniforms ∧
    animateTrace.indexOf FrameEvent.uploadUniforms
        < animateTrace.indexOf FrameEvent.bindIndexBuffer ∧
    animateTrace.indexOf FrameEvent.bindIndexBuffer
        < animateTrace.indexOf FrameEvent.drawElements ∧
    animateTrace.indexOf FrameEvent.drawElements
        < animateTrace.indexOf FrameEvent.requestNextFrame := by decide
